import Mathlib

/-!
Shallow embedding of the map-building core of `src/app.py` (a Streamlit/folium
dashboard for pipe-failure risk).  Python floats are modelled as exact
rationals extended with the IEEE special values `inf`, `-inf` and `nan`
(`XQ` below): the only float operations the code performs are `min`, `max`,
`+`, `/2` and `round(·, 4)`, all of which are modelled exactly on this
carrier.  Python dicts of GeoJSON properties are modelled as association
lists in insertion order; dict assignment overwrites the first matching key
in place or appends a fresh key at the end, as CPython does.
-/

namespace PipeRisk

/-- A GeoJSON property value as produced by `json.load`: a string, an
integer, or a (finite) float modelled as an exact rational. -/
inductive PValue where
  | pstr (s : String)
  | pint (n : ℤ)
  | pfloat (q : ℚ)
deriving DecidableEq

/-- A feature's `properties` dict: an association list in insertion order. -/
abbrev Props := List (String × PValue)

/-- A feature's `geometry`.  `feat.get("geometry", {})` dispatches on the
`type` tag: `LineString` carries a list of raw coordinate points (each a
list of numbers, since the source destructures `for lon, lat in coords`),
`MultiLineString` a list of such lists; every other tag (including an
absent or malformed geometry) lands in `other`. -/
inductive Geometry where
  | lineString (coords : List (List ℚ))
  | multiLineString (coords : List (List (List ℚ)))
  | other
deriving DecidableEq

/-- One GeoJSON feature. -/
structure Feature where
  geometry : Geometry
  properties : Props
deriving DecidableEq

/-- The top-level feature collection (`gj["features"]`). -/
structure GeoJSON where
  features : List Feature
deriving DecidableEq

/-! ### Extended values: Python floats with `inf`, `-inf`, `nan` -/

/-- A Python float value: `nan`, `inf` (`math.inf`), `ninf` (`-math.inf`),
or a finite value modelled as an exact rational. -/
inductive XQ where
  | nan
  | inf
  | ninf
  | fin (q : ℚ)
deriving DecidableEq

/-- IEEE `<` on extended values; every comparison with `nan` is false. -/
def xlt : XQ → XQ → Bool
  | .nan, _ => false
  | _, .nan => false
  | .inf, _ => false
  | _, .inf => true
  | .ninf, .ninf => false
  | .ninf, _ => true
  | _, .ninf => false
  | .fin a, .fin b => decide (a < b)

/-- Python `min(a, b)`: returns `b` exactly when `b < a`. -/
def xmin (a b : XQ) : XQ := if xlt b a then b else a

/-- Python `max(a, b)`: returns `b` exactly when `a < b`. -/
def xmax (a b : XQ) : XQ := if xlt a b then b else a

/-- IEEE addition on extended values; `inf + (-inf)` is `nan`. -/
def xadd : XQ → XQ → XQ
  | .nan, _ => .nan
  | _, .nan => .nan
  | .inf, .ninf => .nan
  | .ninf, .inf => .nan
  | .inf, _ => .inf
  | _, .inf => .inf
  | .ninf, _ => .ninf
  | _, .ninf => .ninf
  | .fin a, .fin b => .fin (a + b)

/-- IEEE division by 2 on extended values. -/
def xhalf : XQ → XQ
  | .nan => .nan
  | .inf => .inf
  | .ninf => .ninf
  | .fin q => .fin (q / 2)

/-! ### `get_bounds` (src/app.py lines 24-40) -/

/-- The four running extrema of `get_bounds`. -/
structure Bnds where
  minlat : XQ
  maxlat : XQ
  minlon : XQ
  maxlon : XQ
deriving DecidableEq

/-- Initial state: `minlat = minlon = math.inf`, `maxlat = maxlon = -math.inf`. -/
def bInit : Bnds := ⟨.inf, .ninf, .inf, .ninf⟩

/-- One iteration of `for lon, lat in coords`: the tuple destructuring
requires exactly two components and raises `ValueError` otherwise (modelled
as `none`); on success it updates the four extrema. -/
def stepPoint (s : Bnds) (pt : List ℚ) : Option Bnds :=
  match pt with
  | [lon, lat] =>
      some ⟨xmin s.minlat (.fin lat), xmax s.maxlat (.fin lat),
            xmin s.minlon (.fin lon), xmax s.maxlon (.fin lon)⟩
  | _ => none

/-- The raw coordinate points a feature feeds into the scan: a
`LineString`'s point list, a `MultiLineString`'s flattened point list
(`[pt for line in coords for pt in line]`), nothing for any other
geometry (`continue`). -/
def featCoords (f : Feature) : List (List ℚ) :=
  match f.geometry with
  | .lineString cs => cs
  | .multiLineString css => css.flatten
  | .other => []

/-- Model of `get_bounds`: scans every feature's points updating the extrema, then
returns `(center, bounds)` with `center = [(minlat+maxlat)/2,
(minlon+maxlon)/2]` and `bounds = [[minlat, minlon], [maxlat, maxlon]]`.
`none` models the `ValueError` raised by destructuring a point that is not
a two-element sequence. -/
def get_bounds (gj : GeoJSON) : Option (List XQ × List (List XQ)) := do
  let s ← gj.features.foldlM (fun s f => (featCoords f).foldlM stepPoint s) bInit
  pure ([xhalf (xadd s.minlat s.maxlat), xhalf (xadd s.minlon s.maxlon)],
        [[s.minlat, s.minlon], [s.maxlat, s.maxlon]])

/-- All raw points of the collection in scan order. -/
def allCoords (gj : GeoJSON) : List (List ℚ) :=
  (gj.features.map featCoords).flatten

/-- A well-formed two-element point `[lon, lat]` as a pair. -/
def toPair (pt : List ℚ) : ℚ × ℚ := (pt.headD 0, (pt.drop 1).headD 0)

/-- All well-formed points of the collection as `(lon, lat)` pairs. -/
def allPairs (gj : GeoJSON) : List (ℚ × ℚ) := (allCoords gj).map toPair

/-- The latitudes (second components) of all points. -/
def latList (gj : GeoJSON) : List ℚ := (allPairs gj).map Prod.snd

/-- The longitudes (first components) of all points. -/
def lonList (gj : GeoJSON) : List ℚ := (allPairs gj).map Prod.fst

/-! ### Palette and style function (src/app.py lines 14-21, 58-62) -/

/-- The fixed six-entry color palette `PALETTE`, in source order. -/
def PALETTE : List (String × String) :=
  [("Very Low", "#7fc97f"),
   ("Low", "#beed90"),
   ("Moderate", "#ffff99"),
   ("Moderately High", "#fdc86e"),
   ("High", "#fdae61"),
   ("Very High", "#d7191c")]

/-- Dict lookup on a `properties` association list (`props.get(k)` /
`props[k]` / `k in props`): the value of the first entry with the key. -/
def lookupProp (ps : Props) (k : String) : Option PValue :=
  (ps.find? (fun kv => kv.1 = k)).map (fun kv => kv.2)

/-- Lookup `PALETTE.get(bucket)` for a string key. -/
def paletteLookup (s : String) : Option String :=
  ((PALETTE.find? (fun kv => kv.1 = s)).map (fun kv => kv.2))

/-- The style dict returned by `style_fn`. -/
structure Style where
  color : String
  weight : ℕ
  opacity : ℚ
deriving DecidableEq

/-- Model of `style_fn`: `bucket = props.get(bucket_field, "Moderate")`, then
`color = PALETTE.get(bucket, "#3186cc")`.  A non-string bucket value can
never equal a string palette key, so it also falls to `"#3186cc"`. -/
def style_fn (bucket_field : String) (feat : Feature) : Style :=
  let bucket := (lookupProp feat.properties bucket_field).getD (.pstr "Moderate")
  let color :=
    match bucket with
    | .pstr s => (paletteLookup s).getD "#3186cc"
    | _ => "#3186cc"
  ⟨color, 3, 9 / 10⟩

/-! ### Mode resolution (src/app.py lines 44-53) -/

/-- The field-name triple and layer name selected by `build_map`'s
`if mode == "Poisson Regression": ... else: ...`. -/
structure ModeFields where
  bucket_field : String
  p_field : String
  lam_field : String
  layer_name : String
deriving DecidableEq

/-- The mode-resolution step of `build_map`: the Poisson field set for the
exact mode string `"Poisson Regression"`, the GBT field set for every
other mode string (the literal `else` branch). -/
def resolveMode (mode : String) : ModeFields :=
  if mode = "Poisson Regression" then
    ⟨"risk_bucket", "p_ge1", "lambda_hat", "Risk (Poisson)"⟩
  else
    ⟨"risk_bucket_gbt", "p_ge1_gbt", "lambda_hat_gbt", "Risk (GBT)"⟩

/-! ### Number parsing, rounding and display -/

/-- Digit-string value: `foldl` over chars of a decimal numeral. -/
def digitsToNat (cs : List Char) : ℕ :=
  cs.foldl (fun v c => v * 10 + (c.toNat - 48)) 0

/-- Python `float(s)` on a string, restricted to the plain decimal
fragment the data uses: optional surrounding spaces, optional sign,
integer digits, optional `.` and fraction digits, at least one digit in
total.  (Exponents and the `inf`/`nan` words are not used by this data and
are not modelled; any such string is simply a parse failure here.) -/
def pyFloatOfString (s : String) : Option ℚ :=
  let cs := ((s.toList.dropWhile (fun c => c = ' ')).reverse.dropWhile
      (fun c => c = ' ')).reverse
  let sgn : ℚ := match cs with
    | '-' :: _ => -1
    | _ => 1
  let cs := match cs with
    | '-' :: rest => rest
    | '+' :: rest => rest
    | _ => cs
  let ip := cs.takeWhile Char.isDigit
  let rest := cs.dropWhile Char.isDigit
  match rest with
  | [] => if ip.isEmpty then none else some (sgn * digitsToNat ip)
  | '.' :: fp =>
      if fp.all Char.isDigit && !(ip.isEmpty && fp.isEmpty) then
        some (sgn * ((digitsToNat ip : ℚ) +
          (digitsToNat fp : ℚ) / (10 : ℚ) ^ fp.length))
      else none
  | _ => none

/-- Python `float(v)` on a property value: numbers pass through, strings
are parsed, anything unparsable raises (is `none`, caught by the source's
bare `except`). -/
def parseF : PValue → Option ℚ
  | .pint n => some (n : ℚ)
  | .pfloat q => some q
  | .pstr s => pyFloatOfString s

/-- Round-half-to-even to an integer (the rounding Python's `round` uses),
on exact rationals. -/
def rhe (q : ℚ) : ℤ :=
  let f := ⌊q⌋
  let r := q - (f : ℚ)
  if r < 1 / 2 then f
  else if 1 / 2 < r then f + 1
  else if f % 2 = 0 then f else f + 1

/-- Python `round(x, 4)` on exact rationals. -/
def round4 (q : ℚ) : ℚ := (rhe (q * 10000) : ℚ) / 10000

/-- Least `k ≤ bound` such that `q * 10^k` is an integer, if any: the
number of decimal digits needed to write `q` exactly. -/
def decScale (q : ℚ) : ℕ → Option ℕ
  | 0 => if q.den = 1 then some 0 else none
  | n + 1 =>
      match decScale q n with
      | some k => some k
      | none => if (q * (10 : ℚ) ^ (n + 1)).den = 1 then some (n + 1) else none

/-- A natural number as `k` decimal digits, left-padded with zeros. -/
def natDigitsPad (m k : ℕ) : String :=
  let s := toString m
  String.mk (List.replicate (k - s.length) '0') ++ s

/-- Python `str` of a finite float, for values with a short exact decimal
expansion (every value the tooltip rounds has at most 4 decimals): an
integer-valued float prints with a trailing `.0`, otherwise the exact
decimal digits are printed with no trailing zeros. -/
def fmtFloatQ (q : ℚ) : String :=
  match decScale q 17 with
  | some 0 => toString q.num ++ ".0"
  | some k =>
      let n := (q * (10 : ℚ) ^ k).num
      let m := n.natAbs
      (if n < 0 then "-" else "") ++ toString (m / 10 ^ k) ++ "." ++
        natDigitsPad (m % 10 ^ k) k
  | none => toString q

/-- Python `str` (f-string interpolation) of a property value. -/
def fmtP : PValue → String
  | .pstr s => s
  | .pint n => toString n
  | .pfloat q => fmtFloatQ q

/-- The value of the local `lam`/`p1` after the try/except block: `None`
when the field was absent, the rounded float when `float(...)` succeeded,
the raw value unmodified when it raised. -/
inductive TVal where
  | vnone
  | vfloat (q : ℚ)
  | raw (v : PValue)
deriving DecidableEq

/-- Model of `lam = props.get(field, None); if lam is not None: try: lam =
round(float(lam), 4) except: pass`. -/
def procNum : Option PValue → TVal
  | none => .vnone
  | some v =>
      match parseF v with
      | some q => .vfloat (round4 q)
      | none => .raw v

/-- Python `str` of a `lam`/`p1` value (`None` prints as `"None"`). -/
def fmtT : TVal → String
  | .vnone => "None"
  | .vfloat q => fmtFloatQ q
  | .raw v => fmtP v

/-! ### Tooltip construction (src/app.py lines 64-77) -/

/-- The fixed ordered list `show` of base attributes. -/
def showKeys : List String :=
  ["id_segmen", "Jenis_pipa", "Diameter", "Length", "DMA_norm"]

/-- The list of tooltip lines: one `"<k>: <value>"` line per present base
attribute in `show` order, then the rate line, the probability line, and
the risk line (`props.get(bucket_field, '-')` interpolated as-is). -/
def tooltip_lines (mf : ModeFields) (props : Props) : List String :=
  (showKeys.filterMap fun k =>
      (lookupProp props k).map (fun v => k ++ ": " ++ fmtP v)) ++
    ["λ_hat: " ++ fmtT (procNum (lookupProp props mf.lam_field)),
     "P(≥1): " ++ fmtT (procNum (lookupProp props mf.p_field)),
     "Risk: " ++ fmtP ((lookupProp props mf.bucket_field).getD (.pstr "-"))]

/-- Model of `tooltip_html`: the lines joined with `"<br>"`. -/
def tooltip_html (mf : ModeFields) (props : Props) : String :=
  String.intercalate "<br>" (tooltip_lines mf props)

/-! ### `_tooltip` injection and `build_map` (src/app.py lines 79-112) -/

/-- CPython dict assignment `ps[k] = v`: overwrite the (first) entry with
key `k` in place, or append a fresh entry at the end. -/
def setProp : Props → String → PValue → Props
  | [], k, v => [(k, v)]
  | (k', v') :: rest, k, v =>
      if k' = k then (k, v) :: rest else (k', v') :: setProp rest k v

/-- One iteration of the injection loop: `props["_tooltip"] =
tooltip_html(props)` (the right-hand side reads the pre-assignment dict). -/
def applyTooltip (mf : ModeFields) (f : Feature) : Feature :=
  { f with properties :=
      setProp f.properties "_tooltip" (.pstr (tooltip_html mf f.properties)) }

/-- The effect of `build_map` on the feature collection: every feature
gets its `_tooltip` written, nothing else changes. -/
def build_map_features (gj : GeoJSON) (mode : String) : GeoJSON :=
  ⟨gj.features.map (applyTooltip (resolveMode mode))⟩

/-- The data `build_map` assembles into the folium map (the parts of the
artifact this core computes; tiles/legend markup are fixed strings). -/
structure MapArtifact where
  fieldsUsed : ModeFields
  center : List XQ
  bnds : List (List XQ)
  outFeatures : GeoJSON
deriving DecidableEq

/-- Model of `build_map`: resolve the mode, compute bounds (propagating the
`ValueError` of a malformed point as `none`), inject tooltips. -/
def build_map (gj : GeoJSON) (mode : String) : Option MapArtifact :=
  match get_bounds gj with
  | none => none
  | some cb =>
      some ⟨resolveMode mode, cb.1, cb.2, build_map_features gj mode⟩

/-! ### Specification-side helpers and concrete test inputs -/

/-- The extrema update of one well-formed `(lon, lat)` point (the success
case of `stepPoint`, with the pair already destructured). -/
def stepPair (s : Bnds) (p : ℚ × ℚ) : Bnds :=
  ⟨xmin s.minlat (.fin p.2), xmax s.maxlat (.fin p.2),
   xmin s.minlon (.fin p.1), xmax s.maxlon (.fin p.1)⟩

/-- A small well-formed collection: one `LineString`, one
`MultiLineString`, points `(lon, lat)` ∈ {(0,0), (2,4), (1,1), (3,2)}. -/
def gjEx : GeoJSON :=
  ⟨[⟨.lineString [[0, 0], [2, 4]], [("id_segmen", .pint 1)]⟩,
    ⟨.multiLineString [[[1, 1]], [[3, 2]]], []⟩]⟩

/-- A collection whose only feature has an unsupported geometry. -/
def gjOther : GeoJSON := ⟨[⟨.other, [("id_segmen", .pint 9)]⟩]⟩

/-- A feature with an unsupported geometry, for the filtering claim. -/
def featOther : Feature := ⟨.other, [("id_segmen", .pint 3)]⟩

/-- A collection containing a three-element GeoJSON position
(lon, lat, altitude), which the source's `for lon, lat in coords`
destructuring cannot handle. -/
def gjBadPoint : GeoJSON := ⟨[⟨.lineString [[1, 2, 3]], []⟩]⟩

/-- A feature whose properties lack any risk-bucket field. -/
def fNoBucket : Feature := ⟨.other, [("id_segmen", .pint 2)]⟩

/-- A feature whose `risk_bucket` holds a name outside the palette. -/
def fPurple : Feature := ⟨.other, [("risk_bucket", .pstr "Purple")]⟩

/-- Properties carrying only a rate estimate of `0.123456789`. -/
def lamProps : Props := [("lambda_hat", .pfloat (mkRat 123456789 1000000000))]

/-- Properties with all five base attributes and all Poisson fields. -/
def psFull : Props :=
  [("id_segmen", .pint 1), ("Jenis_pipa", .pstr "PVC"), ("Diameter", .pint 110),
   ("Length", .pfloat (mkRat 25 2)), ("DMA_norm", .pfloat (mkRat 1 2)),
   ("risk_bucket", .pstr "High"), ("p_ge1", .pfloat (mkRat 1 4)),
   ("lambda_hat", .pstr "0.30")]

/-- A feature used to exercise the frame conditions of the injection loop. -/
def featEx : Feature :=
  ⟨.lineString [[0, 0]], [("Diameter", .pint 110), ("risk_bucket", .pstr "High")]⟩

/-! ## Lemmas about the bounds scan -/

theorem foldlM_opt_append {α β : Type} (f : β → α → Option β) (l₁ l₂ : List α)
    (s : β) :
    (l₁ ++ l₂).foldlM f s = (l₁.foldlM f s).bind fun t => l₂.foldlM f t := by
  induction l₁ generalizing s with
  | nil => simp
  | cons a l ih =>
      simp only [List.cons_append, List.foldlM_cons]
      cases h : f s a with
      | none => simp [h]
      | some t => simp [h, ih]

/-- The nested per-feature/per-point scan of `get_bounds` equals one scan
over the flattened point list. -/
theorem nested_foldlM_eq_flat (fs : List Feature) (s : Bnds) :
    fs.foldlM (fun s f => (featCoords f).foldlM stepPoint s) s
      = ((fs.map featCoords).flatten).foldlM stepPoint s := by
  induction fs generalizing s with
  | nil => rfl
  | cons f fs ih =>
      simp only [List.map_cons, List.flatten_cons, foldlM_opt_append,
        List.foldlM_cons]
      cases h : (featCoords f).foldlM stepPoint s with
      | none => simp [h]
      | some t => simp [h, ih]

/-- Lemma: `get_bounds` as a single scan over `allCoords`. -/
theorem get_bounds_eq_flat (gj : GeoJSON) :
    get_bounds gj = Option.map
      (fun s => ([xhalf (xadd s.minlat s.maxlat), xhalf (xadd s.minlon s.maxlon)],
                 [[s.minlat, s.minlon], [s.maxlat, s.maxlon]]))
      ((allCoords gj).foldlM stepPoint bInit) := by
  unfold get_bounds allCoords
  rw [nested_foldlM_eq_flat]
  cases h : ((gj.features.map featCoords).flatten).foldlM stepPoint bInit with
  | none => simp [h]
  | some s => simp [h]

/-- If every feature contributes no point, the flattened point list is
empty. -/
theorem allCoords_eq_nil (gj : GeoJSON) (h : ∀ f ∈ gj.features, featCoords f = []) :
    allCoords gj = [] := by
  unfold allCoords
  have h' : ∀ l ∈ gj.features.map featCoords, l = [] := by
    intro l hl
    obtain ⟨f, hf, rfl⟩ := List.mem_map.mp hl
    exact h f hf
  simpa using h'

/-! ## Claim theorems: C2, C7, C4, C3 -/

/-- Claim C2 counterexample: on the empty feature collection the code
returns bounds `[[inf, inf], [-inf, -inf]]` but a center of `[nan, nan]`
(`(inf + -inf)/2` is `nan`, not an infinity), so the claim that "both the
returned center and the returned bounds contain infinities" fails: the
center contains no infinity at all. -/
theorem C2_empty_center_is_nan :
    get_bounds ⟨[]⟩
      = some ([XQ.nan, XQ.nan], [[XQ.inf, XQ.inf], [XQ.ninf, XQ.ninf]]) ∧
    ¬ (XQ.inf ∈ [XQ.nan, XQ.nan] ∨ XQ.ninf ∈ [XQ.nan, XQ.nan]) := by
  constructor
  · rfl
  · decide

/-- Claim C2 (amended): for every collection in which no feature
contributes a coordinate, the running min/max remain at `+inf`/`-inf`, so
the returned bounds are `[[inf, inf], [-inf, -inf]]` (containing
infinities) while the returned center is `[nan, nan]`. -/
theorem C2_degenerate_bounds (gj : GeoJSON)
    (h : ∀ f ∈ gj.features, featCoords f = []) :
    get_bounds gj
      = some ([XQ.nan, XQ.nan], [[XQ.inf, XQ.inf], [XQ.ninf, XQ.ninf]]) := by
  rw [get_bounds_eq_flat, allCoords_eq_nil gj h]
  rfl

/-- Witness for C2: a collection whose single feature has an unsupported
geometry. -/
theorem C2_degenerate_bounds_witness :
    get_bounds gjOther
      = some ([XQ.nan, XQ.nan], [[XQ.inf, XQ.inf], [XQ.ninf, XQ.ninf]]) :=
  C2_degenerate_bounds gjOther (by decide)

/-- Claim C7: a feature whose geometry type is outside
{LineString, MultiLineString} contributes zero points: appending it to any
collection leaves `get_bounds` unchanged. -/
theorem C7_unsupported_geometry_no_contribution (fs : List Feature) (f : Feature)
    (h : f.geometry = Geometry.other) :
    get_bounds ⟨fs ++ [f]⟩ = get_bounds ⟨fs⟩ := by
  rw [get_bounds_eq_flat, get_bounds_eq_flat]
  have hc : allCoords ⟨fs ++ [f]⟩ = allCoords ⟨fs⟩ := by
    simp [allCoords, featCoords, h]
  rw [hc]

/-- Witness for C7 at a concrete mixed collection. -/
theorem C7_unsupported_geometry_no_contribution_witness :
    get_bounds ⟨gjEx.features ++ [featOther]⟩ = get_bounds ⟨gjEx.features⟩ :=
  C7_unsupported_geometry_no_contribution gjEx.features featOther (by decide)

/-- Claim C4: mode `"Poisson Regression"` resolves to the fields
`{risk_bucket, p_ge1, lambda_hat}`, mode `"Gradient Boosted Trees (GBT)"`
to `{risk_bucket_gbt, p_ge1_gbt, lambda_hat_gbt}`, and every mode value
other than `"Poisson Regression"` falls back to the GBT field set. -/
theorem C4_mode_resolution :
    resolveMode "Poisson Regression"
      = ⟨"risk_bucket", "p_ge1", "lambda_hat", "Risk (Poisson)"⟩ ∧
    resolveMode "Gradient Boosted Trees (GBT)"
      = ⟨"risk_bucket_gbt", "p_ge1_gbt", "lambda_hat_gbt", "Risk (GBT)"⟩ ∧
    ∀ mode : String, mode ≠ "Poisson Regression" →
      resolveMode mode
        = ⟨"risk_bucket_gbt", "p_ge1_gbt", "lambda_hat_gbt", "Risk (GBT)"⟩ := by
  refine ⟨by decide, by decide, ?_⟩
  intro mode h
  unfold resolveMode
  rw [if_neg h]

/-- Witness for C4 at an unrecognized mode string. -/
theorem C4_mode_resolution_witness :
    resolveMode "Random Forest"
      = ⟨"risk_bucket_gbt", "p_ge1_gbt", "lambda_hat_gbt", "Risk (GBT)"⟩ :=
  C4_mode_resolution.2.2 "Random Forest" (by decide)

/-- Claim C3: the style color is a double fallback: an absent bucket field
defaults to category `"Moderate"` (hence color `"#ffff99"`); each of the
six fixed category names maps to its documented hex value; a present
category name resolves through the palette with default `"#3186cc"`; a
name outside the palette yields `"#3186cc"`. -/
theorem C3_color_determinism :
    (∀ (bf : String) (f : Feature), lookupProp f.properties bf = none →
        (style_fn bf f).color = "#ffff99") ∧
    paletteLookup "Very Low" = some "#7fc97f" ∧
    paletteLookup "Low" = some "#beed90" ∧
    paletteLookup "Moderate" = some "#ffff99" ∧
    paletteLookup "Moderately High" = some "#fdc86e" ∧
    paletteLookup "High" = some "#fdae61" ∧
    paletteLookup "Very High" = some "#d7191c" ∧
    (∀ (bf : String) (f : Feature) (c : String),
        lookupProp f.properties bf = some (.pstr c) →
        (style_fn bf f).color = (paletteLookup c).getD "#3186cc") ∧
    (∀ (bf : String) (f : Feature) (c : String),
        lookupProp f.properties bf = some (.pstr c) → paletteLookup c = none →
        (style_fn bf f).color = "#3186cc") := by
  refine ⟨?_, by decide, by decide, by decide, by decide, by decide, by decide,
    ?_, ?_⟩
  · intro bf f h
    unfold style_fn
    rw [h]
    rfl
  · intro bf f c h
    unfold style_fn
    rw [h]
    rfl
  · intro bf f c h hc
    unfold style_fn
    rw [h]
    show (paletteLookup c).getD "#3186cc" = "#3186cc"
    rw [hc]
    rfl

/-- Witness for C3: an absent bucket field gives the Moderate color, an
unrecognized bucket name gives the gray default. -/
theorem C3_color_determinism_witness :
    (style_fn "risk_bucket" fNoBucket).color = "#ffff99" ∧
    (style_fn "risk_bucket" fPurple).color = "#3186cc" :=
  ⟨C3_color_determinism.1 "risk_bucket" fNoBucket (by decide),
   C3_color_determinism.2.2.2.2.2.2.2.2 "risk_bucket" fPurple "Purple"
     (by decide) (by decide)⟩

/-! ## Lemmas about dict assignment and the tooltip injection loop -/

theorem lookup_setProp_self (ps : Props) (k : String) (v : PValue) :
    lookupProp (setProp ps k v) k = some v := by
  induction ps with
  | nil => simp [setProp, lookupProp]
  | cons kv rest ih =>
      by_cases h : kv.1 = k
      · simp [setProp, h, lookupProp]
      · simpa [setProp, h, lookupProp, List.find?] using ih

theorem lookup_setProp_ne (ps : Props) (k : String) (v : PValue) (k' : String)
    (h : k' ≠ k) :
    lookupProp (setProp ps k v) k' = lookupProp ps k' := by
  induction ps with
  | nil => simp [setProp, lookupProp, List.find?, Ne.symm h]
  | cons kv rest ih =>
      by_cases hk : kv.1 = k
      · have hkv : ¬ (kv.1 = k') := by rw [hk]; exact Ne.symm h
        simp [setProp, hk, lookupProp, List.find?, Ne.symm h, hkv]
      · by_cases hk' : kv.1 = k'
        · simp [setProp, hk, lookupProp, List.find?, hk', h]
        · simpa [setProp, hk, lookupProp, List.find?, hk'] using ih

theorem setProp_setProp (ps : Props) (k : String) (v w : PValue) :
    setProp (setProp ps k v) k w = setProp ps k w := by
  induction ps with
  | nil => simp [setProp]
  | cons kv rest ih =>
      by_cases h : kv.1 = k
      · simp [setProp, h]
      · simp [setProp, h, ih]

theorem filter_setProp (ps : Props) (k : String) (v : PValue) :
    (setProp ps k v).filter (fun kv => !(kv.1 == k))
      = ps.filter (fun kv => !(kv.1 == k)) := by
  induction ps with
  | nil => simp [setProp]
  | cons kv rest ih =>
      by_cases h : kv.1 = k
      · simp [setProp, h]
      · simp [setProp, h, ih]

theorem filterMap_lookup_congr (g : String → PValue → String) (l : List String)
    (p q : Props) (h : ∀ k ∈ l, lookupProp p k = lookupProp q k) :
    (l.filterMap fun k => (lookupProp p k).map (g k))
      = (l.filterMap fun k => (lookupProp q k).map (g k)) := by
  induction l with
  | nil => rfl
  | cons a l ih =>
      simp only [List.filterMap_cons, h a (List.mem_cons_self a l)]
      rw [ih fun k hk => h k (List.mem_cons_of_mem a hk)]

/-- The three property fields read by the tooltip are never `_tooltip`,
for either resolved mode. -/
theorem resolveMode_fields_ne (mode : String) :
    (resolveMode mode).bucket_field ≠ "_tooltip" ∧
    (resolveMode mode).p_field ≠ "_tooltip" ∧
    (resolveMode mode).lam_field ≠ "_tooltip" := by
  unfold resolveMode
  split
  · exact ⟨by decide, by decide, by decide⟩
  · exact ⟨by decide, by decide, by decide⟩

/-- Writing `_tooltip` does not change any field the tooltip reads. -/
theorem tooltip_lines_setProp (mf : ModeFields) (ps : Props) (v : PValue)
    (hb : mf.bucket_field ≠ "_tooltip") (hp : mf.p_field ≠ "_tooltip")
    (hl : mf.lam_field ≠ "_tooltip") :
    tooltip_lines mf (setProp ps "_tooltip" v) = tooltip_lines mf ps := by
  unfold tooltip_lines
  rw [lookup_setProp_ne ps "_tooltip" v mf.lam_field hl,
    lookup_setProp_ne ps "_tooltip" v mf.p_field hp,
    lookup_setProp_ne ps "_tooltip" v mf.bucket_field hb,
    filterMap_lookup_congr (fun k w => k ++ ": " ++ fmtP w) showKeys _ ps ?_]
  intro k hk
  have hne : k ≠ "_tooltip" := by
    simp only [showKeys, List.mem_cons, List.mem_singleton,
      List.not_mem_nil, or_false] at hk
    rcases hk with rfl | rfl | rfl | rfl | rfl
    · decide
    · decide
    · decide
    · decide
    · decide
  exact lookup_setProp_ne ps "_tooltip" v k hne

theorem tooltip_html_setProp (mf : ModeFields) (ps : Props) (v : PValue)
    (hb : mf.bucket_field ≠ "_tooltip") (hp : mf.p_field ≠ "_tooltip")
    (hl : mf.lam_field ≠ "_tooltip") :
    tooltip_html mf (setProp ps "_tooltip" v) = tooltip_html mf ps := by
  unfold tooltip_html
  rw [tooltip_lines_setProp mf ps v hb hp hl]

/-! ## Claim theorems: C8, C9 -/

/-- Claim C8: the tooltip-injection step is idempotent: running
`props["_tooltip"] = tooltip_html(props)` a second time recomputes the
same string (the second computation is unaffected by the `_tooltip` key)
and overwrites the entry in place, so the feature is unchanged. -/
theorem C8_tooltip_idempotent (mode : String) (f : Feature) :
    applyTooltip (resolveMode mode) (applyTooltip (resolveMode mode) f)
      = applyTooltip (resolveMode mode) f := by
  obtain ⟨hb, hp, hl⟩ := resolveMode_fields_ne mode
  unfold applyTooltip
  simp only [tooltip_html_setProp (resolveMode mode) f.properties _ hb hp hl,
    setProp_setProp]

/-- Claim C9: one render mutates the collection only by writing the
`_tooltip` key: `build_map_features` maps the injection step over the
features (preserving count and order), the step preserves the geometry
and every property entry other than `_tooltip`, and stores the tooltip
string under `_tooltip`.  (`get_bounds` itself is modelled as a pure
function: its source only reads its input.) -/
theorem C9_frame_only_tooltip (mode : String) (gj : GeoJSON) (f : Feature)
    (k : String) (hk : k ≠ "_tooltip") :
    (build_map_features gj mode).features
      = gj.features.map (applyTooltip (resolveMode mode)) ∧
    (build_map_features gj mode).features.length = gj.features.length ∧
    (applyTooltip (resolveMode mode) f).geometry = f.geometry ∧
    (applyTooltip (resolveMode mode) f).properties.filter
        (fun kv => !(kv.1 == "_tooltip"))
      = f.properties.filter (fun kv => !(kv.1 == "_tooltip")) ∧
    lookupProp (applyTooltip (resolveMode mode) f).properties k
      = lookupProp f.properties k ∧
    lookupProp (applyTooltip (resolveMode mode) f).properties "_tooltip"
      = some (.pstr (tooltip_html (resolveMode mode) f.properties)) := by
  refine ⟨rfl, by simp [build_map_features], rfl, ?_, ?_, ?_⟩
  · exact filter_setProp f.properties "_tooltip" _
  · exact lookup_setProp_ne f.properties "_tooltip" _ k hk
  · exact lookup_setProp_self f.properties "_tooltip" _

/-- Witness for C9 at a concrete feature and key. -/
theorem C9_frame_only_tooltip_witness :
    (build_map_features gjEx "Poisson Regression").features
      = gjEx.features.map (applyTooltip (resolveMode "Poisson Regression")) ∧
    (build_map_features gjEx "Poisson Regression").features.length
      = gjEx.features.length ∧
    (applyTooltip (resolveMode "Poisson Regression") featEx).geometry
      = featEx.geometry ∧
    (applyTooltip (resolveMode "Poisson Regression") featEx).properties.filter
        (fun kv => !(kv.1 == "_tooltip"))
      = featEx.properties.filter (fun kv => !(kv.1 == "_tooltip")) ∧
    lookupProp (applyTooltip (resolveMode "Poisson Regression") featEx).properties
        "Diameter"
      = lookupProp featEx.properties "Diameter" ∧
    lookupProp (applyTooltip (resolveMode "Poisson Regression") featEx).properties
        "_tooltip"
      = some (.pstr (tooltip_html (resolveMode "Poisson Regression")
          featEx.properties)) :=
  C9_frame_only_tooltip "Poisson Regression" gjEx featEx "Diameter" (by decide)

/-! ## Lemmas about tooltip line structure -/

theorem length_filterMap_lookup (ps : Props) (g : String → PValue → String)
    (l : List String) :
    (l.filterMap fun k => (lookupProp ps k).map (g k)).length
      = l.countP (fun k => (lookupProp ps k).isSome) := by
  induction l with
  | nil => rfl
  | cons a l ih =>
      cases h : lookupProp ps a with
      | none => simp [List.filterMap_cons, h, List.countP_cons, ih]
      | some v => simp [List.filterMap_cons, h, List.countP_cons, ih]

theorem getLast?_append3 (xs : List String) (a b c : String) :
    (xs ++ [a, b, c]).getLast? = some c := by
  rw [show xs ++ [a, b, c] = (xs ++ [a, b]) ++ [c] by simp]
  exact List.getLast?_concat _

/-! ## Claim theorems: C5, C6 -/

/-- Claim C5 counterexample: on a feature whose rate field holds
`0.123456789`, the rate-estimate line the code produces is
`"λ_hat: 0.1235"`, not `"λ̂: 0.1235"` as the claim's label says; no line
labelled `"λ̂:"` appears at all. -/
theorem C5_label_is_lam_hat :
    tooltip_lines (resolveMode "Poisson Regression") lamProps
      = ["λ_hat: 0.1235", "P(≥1): None", "Risk: -"] ∧
    "λ̂: 0.1235" ∉ tooltip_lines (resolveMode "Poisson Regression") lamProps ∧
    "λ_hat: 0.1235" ≠ "λ̂: 0.1235" := by
  have h : tooltip_lines (resolveMode "Poisson Regression") lamProps
      = ["λ_hat: 0.1235", "P(≥1): None", "Risk: -"] := by
    with_unfolding_all decide
  refine ⟨h, ?_, by decide⟩
  rw [h]
  decide

/-- Claim C5 (amended): the rate-estimate line is labelled
`"λ_hat: <value>"` (not `"λ̂:"`), where the value is parsed as a float and
rounded to 4 decimal places, the raw value is kept unmodified when parsing
fails, and `None` is shown when the field is absent; the probability line
`"P(≥1): <value>"` applies the identical logic; `0.123456789` displays as
`0.1235` and `"N/A"` displays as `N/A` unrounded. -/
theorem C5_rate_probability_lines :
    (∀ (mf : ModeFields) (ps : Props), tooltip_lines mf ps =
        (showKeys.filterMap fun k => (lookupProp ps k).map fun v =>
          k ++ ": " ++ fmtP v) ++
        ["λ_hat: " ++ fmtT (procNum (lookupProp ps mf.lam_field)),
         "P(≥1): " ++ fmtT (procNum (lookupProp ps mf.p_field)),
         "Risk: " ++ fmtP ((lookupProp ps mf.bucket_field).getD (.pstr "-"))]) ∧
    (∀ (v : PValue) (q : ℚ), parseF v = some q →
        procNum (some v) = .vfloat (round4 q)) ∧
    (∀ v : PValue, parseF v = none →
        procNum (some v) = .raw v ∧ fmtT (.raw v) = fmtP v) ∧
    (procNum none = .vnone ∧ fmtT .vnone = "None") ∧
    fmtT (procNum (some (.pfloat (mkRat 123456789 1000000000)))) = "0.1235" ∧
    fmtT (procNum (some (.pstr "N/A"))) = "N/A" := by
  refine ⟨fun mf ps => rfl, ?_, ?_, ⟨rfl, rfl⟩, ?_, ?_⟩
  · intro v q h
    simp [procNum, h]
  · intro v h
    exact ⟨by simp [procNum, h], rfl⟩
  · with_unfolding_all decide
  · with_unfolding_all decide

/-- Witness for C5: a numeric string parses and is rounded, a non-numeric
string is kept raw. -/
theorem C5_rate_probability_lines_witness :
    procNum (some (.pstr "2.5")) = .vfloat (round4 (mkRat 5 2)) ∧
    procNum (some (.pstr "N/A")) = .raw (.pstr "N/A") :=
  ⟨C5_rate_probability_lines.2.1 (.pstr "2.5") (mkRat 5 2)
     (by with_unfolding_all decide),
   (C5_rate_probability_lines.2.2.1 (.pstr "N/A")
     (by with_unfolding_all decide)).1⟩

/-- Claim C6: with all five base attributes present the tooltip lines are
exactly, in order: the five `"<name>: <value>"` base lines, the rate line,
the probability line, and the risk line; an absent base attribute
contributes no line (the line count is the number of present base
attributes plus three); the final line shows the risk bucket as-is, or
`"-"` if the bucket field is absent. -/
theorem C6_tooltip_order (mf : ModeFields) (ps : Props) :
    ((∀ k ∈ showKeys, (lookupProp ps k).isSome = true) →
      ∃ v1 v2 v3 v4 v5 : PValue,
        lookupProp ps "id_segmen" = some v1 ∧
        lookupProp ps "Jenis_pipa" = some v2 ∧
        lookupProp ps "Diameter" = some v3 ∧
        lookupProp ps "Length" = some v4 ∧
        lookupProp ps "DMA_norm" = some v5 ∧
        tooltip_lines mf ps =
          ["id_segmen: " ++ fmtP v1, "Jenis_pipa: " ++ fmtP v2,
           "Diameter: " ++ fmtP v3, "Length: " ++ fmtP v4,
           "DMA_norm: " ++ fmtP v5,
           "λ_hat: " ++ fmtT (procNum (lookupProp ps mf.lam_field)),
           "P(≥1): " ++ fmtT (procNum (lookupProp ps mf.p_field)),
           "Risk: " ++ fmtP ((lookupProp ps mf.bucket_field).getD (.pstr "-"))]) ∧
    (tooltip_lines mf ps).length
      = (showKeys.countP fun k => (lookupProp ps k).isSome) + 3 ∧
    (lookupProp ps mf.bucket_field = none →
      (tooltip_lines mf ps).getLast? = some "Risk: -") ∧
    (∀ v : PValue, lookupProp ps mf.bucket_field = some v →
      (tooltip_lines mf ps).getLast? = some ("Risk: " ++ fmtP v)) := by
  refine ⟨?_, ?_, ?_, ?_⟩
  · intro h
    obtain ⟨v1, hv1⟩ := Option.isSome_iff_exists.mp (h "id_segmen" (by decide))
    obtain ⟨v2, hv2⟩ := Option.isSome_iff_exists.mp (h "Jenis_pipa" (by decide))
    obtain ⟨v3, hv3⟩ := Option.isSome_iff_exists.mp (h "Diameter" (by decide))
    obtain ⟨v4, hv4⟩ := Option.isSome_iff_exists.mp (h "Length" (by decide))
    obtain ⟨v5, hv5⟩ := Option.isSome_iff_exists.mp (h "DMA_norm" (by decide))
    refine ⟨v1, v2, v3, v4, v5, hv1, hv2, hv3, hv4, hv5, ?_⟩
    unfold tooltip_lines showKeys
    simp [List.filterMap_cons, hv1, hv2, hv3, hv4, hv5]
  · unfold tooltip_lines
    rw [List.length_append, length_filterMap_lookup]
    rfl
  · intro h
    unfold tooltip_lines
    rw [h, getLast?_append3]
    rfl
  · intro v h
    unfold tooltip_lines
    rw [h, getLast?_append3]
    rfl

/-- Witness for C6 with all five base attributes present. -/
theorem C6_tooltip_order_witness :
    (∀ k ∈ showKeys, (lookupProp psFull k).isSome = true) ∧
    (∃ v1 v2 v3 v4 v5 : PValue,
      lookupProp psFull "id_segmen" = some v1 ∧
      lookupProp psFull "Jenis_pipa" = some v2 ∧
      lookupProp psFull "Diameter" = some v3 ∧
      lookupProp psFull "Length" = some v4 ∧
      lookupProp psFull "DMA_norm" = some v5 ∧
      tooltip_lines (resolveMode "Poisson Regression") psFull =
        ["id_segmen: " ++ fmtP v1, "Jenis_pipa: " ++ fmtP v2,
         "Diameter: " ++ fmtP v3, "Length: " ++ fmtP v4,
         "DMA_norm: " ++ fmtP v5,
         "λ_hat: " ++ fmtT (procNum (lookupProp psFull
            (resolveMode "Poisson Regression").lam_field)),
         "P(≥1): " ++ fmtT (procNum (lookupProp psFull
            (resolveMode "Poisson Regression").p_field)),
         "Risk: " ++ fmtP ((lookupProp psFull
            (resolveMode "Poisson Regression").bucket_field).getD
              (.pstr "-"))]) :=
  ⟨by decide,
   (C6_tooltip_order (resolveMode "Poisson Regression") psFull).1 (by decide)⟩

/-! ## Min/max fold lemmas for the bounds computation -/

theorem xmin_fin (a b : ℚ) : xmin (.fin a) (.fin b) = .fin (min a b) := by
  unfold xmin xlt
  by_cases h : b < a
  · simp [h, min_eq_right h.le]
  · simp [h, min_eq_left (le_of_not_lt h)]

theorem xmax_fin (a b : ℚ) : xmax (.fin a) (.fin b) = .fin (max a b) := by
  unfold xmax xlt
  by_cases h : a < b
  · simp [h, max_eq_right h.le]
  · simp [h, max_eq_left (le_of_not_lt h)]

theorem foldl_xmin_fin (l : List ℚ) (c : ℚ) :
    l.foldl (fun m x => xmin m (.fin x)) (.fin c) = .fin (l.foldl min c) := by
  induction l generalizing c with
  | nil => rfl
  | cons a l ih => simp [List.foldl_cons, xmin_fin, ih]

theorem foldl_xmax_fin (l : List ℚ) (c : ℚ) :
    l.foldl (fun m x => xmax m (.fin x)) (.fin c) = .fin (l.foldl max c) := by
  induction l generalizing c with
  | nil => rfl
  | cons a l ih => simp [List.foldl_cons, xmax_fin, ih]

theorem fold_xmin_inf (x0 : ℚ) (t : List ℚ) :
    (x0 :: t).foldl (fun m x => xmin m (.fin x)) XQ.inf
      = .fin (t.foldl min x0) := by
  rw [List.foldl_cons, show xmin XQ.inf (XQ.fin x0) = XQ.fin x0 from rfl]
  exact foldl_xmin_fin t x0

theorem fold_xmax_ninf (x0 : ℚ) (t : List ℚ) :
    (x0 :: t).foldl (fun m x => xmax m (.fin x)) XQ.ninf
      = .fin (t.foldl max x0) := by
  rw [List.foldl_cons, show xmax XQ.ninf (XQ.fin x0) = XQ.fin x0 from rfl]
  exact foldl_xmax_fin t x0

theorem foldl_min_le (l : List ℚ) (c : ℚ) : l.foldl min c ≤ c := by
  induction l generalizing c with
  | nil => simp
  | cons a l ih =>
      rw [List.foldl_cons]
      exact le_trans (ih (min c a)) (min_le_left c a)

theorem foldl_max_ge (l : List ℚ) (c : ℚ) : c ≤ l.foldl max c := by
  induction l generalizing c with
  | nil => simp
  | cons a l ih =>
      rw [List.foldl_cons]
      exact le_trans (le_max_left c a) (ih (max c a))

theorem foldl_min_mem (l : List ℚ) (c : ℚ) :
    l.foldl min c = c ∨ l.foldl min c ∈ l := by
  induction l generalizing c with
  | nil => exact Or.inl rfl
  | cons a l ih =>
      rw [List.foldl_cons]
      rcases ih (min c a) with h | h
      · rcases min_choice c a with hc | hc
        · exact Or.inl (h.trans hc)
        · exact Or.inr (by rw [h, hc]; exact List.mem_cons_self a l)
      · exact Or.inr (List.mem_cons_of_mem a h)

theorem foldl_max_mem (l : List ℚ) (c : ℚ) :
    l.foldl max c = c ∨ l.foldl max c ∈ l := by
  induction l generalizing c with
  | nil => exact Or.inl rfl
  | cons a l ih =>
      rw [List.foldl_cons]
      rcases ih (max c a) with h | h
      · rcases max_choice c a with hc | hc
        · exact Or.inl (h.trans hc)
        · exact Or.inr (by rw [h, hc]; exact List.mem_cons_self a l)
      · exact Or.inr (List.mem_cons_of_mem a h)

theorem foldl_min_le_mem (l : List ℚ) (c x : ℚ) :
    x ∈ l → l.foldl min c ≤ x := by
  induction l generalizing c with
  | nil => intro hx; cases hx
  | cons a l ih =>
      intro hx
      rw [List.foldl_cons]
      rcases List.mem_cons.mp hx with rfl | h
      · exact le_trans (foldl_min_le l (min c x)) (min_le_right c x)
      · exact ih (min c a) h

theorem foldl_max_ge_mem (l : List ℚ) (c x : ℚ) :
    x ∈ l → x ≤ l.foldl max c := by
  induction l generalizing c with
  | nil => intro hx; cases hx
  | cons a l ih =>
      intro hx
      rw [List.foldl_cons]
      rcases List.mem_cons.mp hx with rfl | h
      · exact le_trans (le_max_right c x) (foldl_max_ge l (max c x))
      · exact ih (max c a) h

/-- The min produced by folding from the head is a member of the list and
a lower bound for it. -/
theorem min_spec (x0 : ℚ) (t : List ℚ) :
    t.foldl min x0 ∈ x0 :: t ∧ ∀ x ∈ x0 :: t, t.foldl min x0 ≤ x := by
  constructor
  · rcases foldl_min_mem t x0 with h | h
    · rw [h]; exact List.mem_cons_self _ _
    · exact List.mem_cons_of_mem _ h
  · intro x hx
    rcases List.mem_cons.mp hx with rfl | h
    · exact foldl_min_le t x
    · exact foldl_min_le_mem t x0 x h

/-- The max produced by folding from the head is a member of the list and
an upper bound for it. -/
theorem max_spec (x0 : ℚ) (t : List ℚ) :
    t.foldl max x0 ∈ x0 :: t ∧ ∀ x ∈ x0 :: t, x ≤ t.foldl max x0 := by
  constructor
  · rcases foldl_max_mem t x0 with h | h
    · rw [h]; exact List.mem_cons_self _ _
    · exact List.mem_cons_of_mem _ h
  · intro x hx
    rcases List.mem_cons.mp hx with rfl | h
    · exact foldl_max_ge t x
    · exact foldl_max_ge_mem t x0 x h

/-- The scan state decomposes into four independent one-dimensional
folds. -/
theorem foldl_stepPair_components (ps : List (ℚ × ℚ)) (s : Bnds) :
    ps.foldl stepPair s =
      ⟨ps.foldl (fun m p => xmin m (.fin p.2)) s.minlat,
       ps.foldl (fun m p => xmax m (.fin p.2)) s.maxlat,
       ps.foldl (fun m p => xmin m (.fin p.1)) s.minlon,
       ps.foldl (fun m p => xmax m (.fin p.1)) s.maxlon⟩ := by
  induction ps generalizing s with
  | nil => rfl
  | cons p ps ih => simp [List.foldl_cons, ih, stepPair]

/-- On a list of well-formed two-element points, the fallible scan
succeeds and equals the pure scan over the destructured pairs. -/
theorem foldlM_stepPoint_wf (pts : List (List ℚ)) (s : Bnds)
    (h : ∀ pt ∈ pts, pt.length = 2) :
    pts.foldlM stepPoint s = some ((pts.map toPair).foldl stepPair s) := by
  induction pts generalizing s with
  | nil => rfl
  | cons pt pts ih =>
      obtain ⟨a, b, rfl⟩ := List.length_eq_two.mp (h pt (List.mem_cons_self pt pts))
      have hs : stepPoint s [a, b] = some (stepPair s (a, b)) := rfl
      rw [List.foldlM_cons, hs]
      have h' : ∀ q ∈ pts, q.length = 2 :=
        fun q hq => h q (List.mem_cons_of_mem _ hq)
      show pts.foldlM stepPoint (stepPair s (a, b)) = _
      rw [ih _ h', List.map_cons, List.foldl_cons]
      rfl

/-! ## Claim theorems: C1, C10 -/

/-- Claim C1: for every well-formed collection contributing at least one
point, `get_bounds` returns bounds exactly equal to the coordinate-wise
min/max of latitude and longitude over all points of all supported
geometries, and a center equal to `((min+max)/2, (min+max)/2)`, which
therefore lies between the min and the max in each coordinate. -/
theorem C1_bounds_exact (gj : GeoJSON)
    (hwf : ∀ pt ∈ allCoords gj, pt.length = 2)
    (hne : allCoords gj ≠ []) :
    ∃ mlat Mlat mlon Mlon : ℚ,
      get_bounds gj =
        some ([.fin ((mlat + Mlat) / 2), .fin ((mlon + Mlon) / 2)],
              [[.fin mlat, .fin mlon], [.fin Mlat, .fin Mlon]]) ∧
      mlat ∈ latList gj ∧ (∀ x ∈ latList gj, mlat ≤ x) ∧
      Mlat ∈ latList gj ∧ (∀ x ∈ latList gj, x ≤ Mlat) ∧
      mlon ∈ lonList gj ∧ (∀ x ∈ lonList gj, mlon ≤ x) ∧
      Mlon ∈ lonList gj ∧ (∀ x ∈ lonList gj, x ≤ Mlon) ∧
      mlat ≤ (mlat + Mlat) / 2 ∧ (mlat + Mlat) / 2 ≤ Mlat ∧
      mlon ≤ (mlon + Mlon) / 2 ∧ (mlon + Mlon) / 2 ≤ Mlon := by
  obtain ⟨p0, rest, hc⟩ : ∃ p0 rest, allCoords gj = p0 :: rest := by
    cases h : allCoords gj with
    | nil => exact absurd h hne
    | cons a l => exact ⟨a, l, rfl⟩
  have hlatlist : latList gj = (toPair p0).2 :: (rest.map toPair).map Prod.snd := by
    rw [latList, allPairs, hc]; rfl
  have hlonlist : lonList gj = (toPair p0).1 :: (rest.map toPair).map Prod.fst := by
    rw [lonList, allPairs, hc]; rfl
  have hminlat : ((allCoords gj).map toPair).foldl
        (fun m p => xmin m (.fin p.2)) XQ.inf
      = .fin (((rest.map toPair).map Prod.snd).foldl min (toPair p0).2) := by
    rw [← List.foldl_map Prod.snd (fun m x => xmin m (.fin x))
        ((allCoords gj).map toPair) XQ.inf]
    rw [show ((allCoords gj).map toPair).map Prod.snd = latList gj from rfl,
      hlatlist]
    exact fold_xmin_inf _ _
  have hmaxlat : ((allCoords gj).map toPair).foldl
        (fun m p => xmax m (.fin p.2)) XQ.ninf
      = .fin (((rest.map toPair).map Prod.snd).foldl max (toPair p0).2) := by
    rw [← List.foldl_map Prod.snd (fun m x => xmax m (.fin x))
        ((allCoords gj).map toPair) XQ.ninf]
    rw [show ((allCoords gj).map toPair).map Prod.snd = latList gj from rfl,
      hlatlist]
    exact fold_xmax_ninf _ _
  have hminlon : ((allCoords gj).map toPair).foldl
        (fun m p => xmin m (.fin p.1)) XQ.inf
      = .fin (((rest.map toPair).map Prod.fst).foldl min (toPair p0).1) := by
    rw [← List.foldl_map Prod.fst (fun m x => xmin m (.fin x))
        ((allCoords gj).map toPair) XQ.inf]
    rw [show ((allCoords gj).map toPair).map Prod.fst = lonList gj from rfl,
      hlonlist]
    exact fold_xmin_inf _ _
  have hmaxlon : ((allCoords gj).map toPair).foldl
        (fun m p => xmax m (.fin p.1)) XQ.ninf
      = .fin (((rest.map toPair).map Prod.fst).foldl max (toPair p0).1) := by
    rw [← List.foldl_map Prod.fst (fun m x => xmax m (.fin x))
        ((allCoords gj).map toPair) XQ.ninf]
    rw [show ((allCoords gj).map toPair).map Prod.fst = lonList gj from rfl,
      hlonlist]
    exact fold_xmax_ninf _ _
  obtain ⟨hmlat_mem, hmlat_le⟩ := min_spec (toPair p0).2 ((rest.map toPair).map Prod.snd)
  obtain ⟨hMlat_mem, hMlat_ge⟩ := max_spec (toPair p0).2 ((rest.map toPair).map Prod.snd)
  obtain ⟨hmlon_mem, hmlon_le⟩ := min_spec (toPair p0).1 ((rest.map toPair).map Prod.fst)
  obtain ⟨hMlon_mem, hMlon_ge⟩ := max_spec (toPair p0).1 ((rest.map toPair).map Prod.fst)
  rw [← hlatlist] at hmlat_mem hMlat_mem
  rw [← hlonlist] at hmlon_mem hMlon_mem
  have hmlat_le' : ∀ x ∈ latList gj,
      ((rest.map toPair).map Prod.snd).foldl min (toPair p0).2 ≤ x := by
    rw [hlatlist]; exact hmlat_le
  have hMlat_ge' : ∀ x ∈ latList gj,
      x ≤ ((rest.map toPair).map Prod.snd).foldl max (toPair p0).2 := by
    rw [hlatlist]; exact hMlat_ge
  have hmlon_le' : ∀ x ∈ lonList gj,
      ((rest.map toPair).map Prod.fst).foldl min (toPair p0).1 ≤ x := by
    rw [hlonlist]; exact hmlon_le
  have hMlon_ge' : ∀ x ∈ lonList gj,
      x ≤ ((rest.map toPair).map Prod.fst).foldl max (toPair p0).1 := by
    rw [hlonlist]; exact hMlon_ge
  have hle_lat : ((rest.map toPair).map Prod.snd).foldl min (toPair p0).2
      ≤ ((rest.map toPair).map Prod.snd).foldl max (toPair p0).2 :=
    hmlat_le' _ hMlat_mem
  have hle_lon : ((rest.map toPair).map Prod.fst).foldl min (toPair p0).1
      ≤ ((rest.map toPair).map Prod.fst).foldl max (toPair p0).1 :=
    hmlon_le' _ hMlon_mem
  refine ⟨_, _, _, _, ?_, hmlat_mem, hmlat_le', hMlat_mem, hMlat_ge',
    hmlon_mem, hmlon_le', hMlon_mem, hMlon_ge',
    by linarith, by linarith, by linarith, by linarith⟩
  rw [get_bounds_eq_flat, foldlM_stepPoint_wf _ _ hwf, Option.map_some',
    foldl_stepPair_components]
  dsimp only [bInit]
  rw [hminlat, hmaxlat, hminlon, hmaxlon]
  rfl

/-- Witness for C1 at a concrete mixed collection with four points. -/
theorem C1_bounds_exact_witness :
    ∃ mlat Mlat mlon Mlon : ℚ,
      get_bounds gjEx =
        some ([.fin ((mlat + Mlat) / 2), .fin ((mlon + Mlon) / 2)],
              [[.fin mlat, .fin mlon], [.fin Mlat, .fin Mlon]]) ∧
      mlat ∈ latList gjEx ∧ (∀ x ∈ latList gjEx, mlat ≤ x) ∧
      Mlat ∈ latList gjEx ∧ (∀ x ∈ latList gjEx, x ≤ Mlat) ∧
      mlon ∈ lonList gjEx ∧ (∀ x ∈ lonList gjEx, mlon ≤ x) ∧
      Mlon ∈ lonList gjEx ∧ (∀ x ∈ lonList gjEx, x ≤ Mlon) ∧
      mlat ≤ (mlat + Mlat) / 2 ∧ (mlat + Mlat) / 2 ≤ Mlat ∧
      mlon ≤ (mlon + Mlon) / 2 ∧ (mlon + Mlon) / 2 ≤ Mlon :=
  C1_bounds_exact gjEx (by decide) (by decide)

/-- Claim C10: under the unstated precondition that every point is a
two-element `(lon, lat)` pair, `get_bounds` never fails; but on a
collection containing a three-element position the per-point
destructuring raises (`none`) instead of skipping or truncating. -/
theorem C10_destructuring (gj : GeoJSON) :
    ((∀ pt ∈ allCoords gj, pt.length = 2) → (get_bounds gj).isSome = true) ∧
    get_bounds gjBadPoint = none := by
  constructor
  · intro h
    rw [get_bounds_eq_flat, foldlM_stepPoint_wf _ _ h]
    rfl
  · rfl

/-- Witness for C10: the well-formed example collection succeeds. -/
theorem C10_destructuring_witness : (get_bounds gjEx).isSome = true :=
  (C10_destructuring gjEx).1 (by decide)

end PipeRisk
